import Mathlib

/-!
Verification of the UMF message module (`index.js`) against its
natural-language specification.

The JavaScript source is shallowly embedded: JavaScript objects become
association lists of string keys and `JSValue`s, JavaScript strings become
Lean `String`s viewed as their character lists, and each source function is
translated line by line into a total Lean function.  Operations that can
raise in JavaScript (property access on `undefined`) additionally get an
`Except`-monad translation so that "never throws" is a provable statement.
-/

/-- A JavaScript runtime value, as far as the message module observes it:
the module only ever branches on truthiness and copies values around.
Object payloads keep their fields so that distinct bodies stay distinct. -/
inductive JSValue where
  | undefined : JSValue
  | vnull : JSValue
  | vbool : Bool → JSValue
  | vnum : Int → JSValue
  | vstr : String → JSValue
  | vobj : List (String × JSValue) → JSValue

/-- JavaScript truthiness: `undefined`, `null`, `false`, `0` and `''` are
falsy; every object is truthy. -/
def truthy : JSValue → Bool
  | .undefined => false
  | .vnull => false
  | .vbool b => b
  | .vnum n => n ≠ 0
  | .vstr s => s ≠ ""
  | .vobj _ => true

/-- A JavaScript object: an insertion-ordered association list.  Real JS
objects have pairwise-distinct keys; theorems that need this assume
`Nodup` on the key list. -/
def JSObj := List (String × JSValue)

/-- Property read `obj[k]`: first binding of `k`, or `undefined`. -/
def jsGet : JSObj → String → JSValue
  | [], _ => .undefined
  | (k', v) :: rest, k => if k' = k then v else jsGet rest k

/-- Does the object have the property at all (`k in obj`)? -/
def hasOwn : JSObj → String → Bool
  | [], _ => false
  | (k', _) :: rest, k => if k' = k then true else hasOwn rest k

/-- Property write `obj[k] = v`: replace the first binding in place, or
append a new binding at the end (JS insertion-order semantics). -/
def jsSet : JSObj → String → JSValue → JSObj
  | [], k, v => [(k, v)]
  | (k', v') :: rest, k, v => if k' = k then (k, v) :: rest else (k', v') :: jsSet rest k v

/-- `Object.assign(target, source)`: copy the source's own properties onto
the target, in insertion order. -/
def objAssign (target source : JSObj) : JSObj :=
  source.foldl (fun acc kv => jsSet acc kv.1 kv.2) target

/-- The `shortToLong` mapping table from the source. -/
def shortToLong : List (String × String) :=
  [("frm", "from"), ("ts", "timestamp"), ("ver", "version"), ("bdy", "body")]

/-- The `longToShort` mapping table from the source. -/
def longToShort : List (String × String) :=
  [("from", "frm"), ("timestamp", "ts"), ("version", "ver"), ("body", "bdy")]

/-- `name in table` for the mapping tables. -/
def tableHas (t : List (String × String)) (k : String) : Bool :=
  t.any (fun p => p.1 = k)

/-- `table[name]` for the mapping tables (call sites guard with `tableHas`,
so the default is never observed on the source's paths). -/
def tableGet (t : List (String × String)) (k : String) : String :=
  ((t.find? (fun p => p.1 = k)).map Prod.snd).getD "undefined"

/-- The `UMF_VERSION` constant from the source. -/
def UMF_VERSION : String := "UMF/1.4.3"

/-- `createMessage(message, shortFormat)` from the source, up to the Proxy
wrapper (modelled separately by `proxyGet`/`proxySet`).  The two id
generators and the timestamp provider are external collaborators
(`uuid.v4`, `Utils.shortID`, `moment`), so their return values enter as
the parameters `genMid` and `genTs`. -/
def createMessage (genMid genTs : String) (message : JSObj) (shortFormat : Bool) : JSObj :=
  if shortFormat = false then
    objAssign [("mid", .vstr genMid), ("timestamp", .vstr genTs), ("version", .vstr UMF_VERSION)]
      message
  else
    objAssign [("mid", .vstr genMid), ("ts", .vstr genTs), ("ver", .vstr UMF_VERSION)]
      message

/-- The Proxy `get` trap from the source: on a short-form message a long
field name is redirected through `longToShort`, on a long-form message a
short field name is redirected through `shortToLong`. -/
def proxyGet (shortFormat : Bool) (obj : JSObj) (name : String) : JSValue :=
  if shortFormat && tableHas longToShort name then
    jsGet obj (tableGet longToShort name)
  else if !shortFormat && tableHas shortToLong name then
    jsGet obj (tableGet shortToLong name)
  else
    jsGet obj name

set_option linter.unusedVariables false in
/-- The Proxy `set` trap from the source.  Its parameters are
`(obj, prop, value)`, but both branch conditions test the identifier
`name`, which has no binding in scope at that point in the source, so
evaluating either condition raises
`ReferenceError: name is not defined` on every invocation. -/
def proxySet (shortFormat : Bool) (obj : JSObj) (prop : String) (value : JSValue) :
    Except String JSObj :=
  Except.error "ReferenceError: name is not defined"

/-- `messageToShort(message)` from the source: each statement
`(message.x) && (convertedMessage.y = message.x)` copies field `x` to the
short name `y` when `message.x` is truthy. -/
def messageToShort (message : JSObj) : JSObj :=
  let convertedMessage : JSObj := []
  let convertedMessage :=
    if truthy (jsGet message "to") then jsSet convertedMessage "to" (jsGet message "to")
    else convertedMessage
  let convertedMessage :=
    if truthy (jsGet message "from") then jsSet convertedMessage "frm" (jsGet message "from")
    else convertedMessage
  let convertedMessage :=
    if truthy (jsGet message "mid") then jsSet convertedMessage "mid" (jsGet message "mid")
    else convertedMessage
  let convertedMessage :=
    if truthy (jsGet message "rmid") then jsSet convertedMessage "rmid" (jsGet message "rmid")
    else convertedMessage
  let convertedMessage :=
    if truthy (jsGet message "timestamp") then jsSet convertedMessage "ts" (jsGet message "timestamp")
    else convertedMessage
  let convertedMessage :=
    if truthy (jsGet message "version") then jsSet convertedMessage "ver" (jsGet message "version")
    else convertedMessage
  let convertedMessage :=
    if truthy (jsGet message "via") then jsSet convertedMessage "via" (jsGet message "via")
    else convertedMessage
  let convertedMessage :=
    if truthy (jsGet message "for") then jsSet convertedMessage "for" (jsGet message "for")
    else convertedMessage
  let convertedMessage :=
    if truthy (jsGet message "body") then jsSet convertedMessage "bdy" (jsGet message "body")
    else convertedMessage
  convertedMessage

/-- `messageToLong(message)` from the source: the inverse renaming, again
copying only truthy fields. -/
def messageToLong (message : JSObj) : JSObj :=
  let convertedMessage : JSObj := []
  let convertedMessage :=
    if truthy (jsGet message "to") then jsSet convertedMessage "to" (jsGet message "to")
    else convertedMessage
  let convertedMessage :=
    if truthy (jsGet message "frm") then jsSet convertedMessage "from" (jsGet message "frm")
    else convertedMessage
  let convertedMessage :=
    if truthy (jsGet message "mid") then jsSet convertedMessage "mid" (jsGet message "mid")
    else convertedMessage
  let convertedMessage :=
    if truthy (jsGet message "rmid") then jsSet convertedMessage "rmid" (jsGet message "rmid")
    else convertedMessage
  let convertedMessage :=
    if truthy (jsGet message "ts") then jsSet convertedMessage "timestamp" (jsGet message "ts")
    else convertedMessage
  let convertedMessage :=
    if truthy (jsGet message "ver") then jsSet convertedMessage "version" (jsGet message "ver")
    else convertedMessage
  let convertedMessage :=
    if truthy (jsGet message "via") then jsSet convertedMessage "via" (jsGet message "via")
    else convertedMessage
  let convertedMessage :=
    if truthy (jsGet message "for") then jsSet convertedMessage "for" (jsGet message "for")
    else convertedMessage
  let convertedMessage :=
    if truthy (jsGet message "bdy") then jsSet convertedMessage "body" (jsGet message "bdy")
    else convertedMessage
  convertedMessage

/-- `validateMessage(message)` from the source. -/
def validateMessage (message : JSObj) : Bool :=
  if (!truthy (jsGet message "from") && !truthy (jsGet message "frm"))
      || !truthy (jsGet message "to")
      || (!truthy (jsGet message "body") && !truthy (jsGet message "bdy")) then
    false
  else
    true

/-- JavaScript `String.prototype.split` with a single-character separator,
on character lists: always returns at least one (possibly empty) piece,
and keeps empty pieces. -/
def splitOnCharList (c : Char) : List Char → List (List Char)
  | [] => [[]]
  | x :: xs =>
    if x = c then [] :: splitOnCharList c xs
    else
      match splitOnCharList c xs with
      | [] => [[x]]
      | y :: ys => (x :: y) :: ys

/-- `s.split(c)` for a one-character separator string. -/
def jsSplitChar (s : String) (c : Char) : List String :=
  (splitOnCharList c s.toList).map String.mk

/-- `s.indexOf(c)` for a single character, with `-1` rendered as `none`. -/
def jsIndexOfChar (s : String) (c : Char) : Option Nat :=
  s.toList.findIdx? (fun x => x = c)

/-- JavaScript `s.length` (character count in this embedding). -/
def jsLength (s : String) : Nat := s.toList.length

/-- JavaScript `s.substring(a, b)`: both indices are clamped to the string
length and swapped when out of order. -/
def jsSubstring (s : String) (a b : Nat) : String :=
  let len := s.toList.length
  let i := min a len
  let j := min b len
  String.mk ((s.toList.take (max i j)).drop (min i j))

/-- JavaScript `s.substring(a)` (one-argument form: to the end). -/
def jsSubstringFrom (s : String) (a : Nat) : String :=
  String.mk (s.toList.drop a)

/-- JavaScript `s.toLowerCase()`, character-wise (the inputs the module
lower-cases are HTTP verbs, where this coincides with JS). -/
def jsToLowerCase (s : String) : String :=
  String.mk (s.toList.map Char.toLower)

/-- Does the character list start with the given pattern?  Models
`s.indexOf(pat) === 0`. -/
def jsStartsWithList : List Char → List Char → Bool
  | _, [] => true
  | [], _ :: _ => false
  | x :: xs, y :: ys => x = y && jsStartsWithList xs ys

/-- `s.indexOf(pat) === 0` on strings. -/
def jsStartsWith (s pat : String) : Bool :=
  jsStartsWithList s.toList pat.toList

/-- Template-literal rendering of a possibly-`undefined` string
(JavaScript prints the literal text `undefined`). -/
def jsTemplate (v : Option String) : String :=
  v.getD "undefined"

/-- JavaScript `segments.join(c)`. -/
def jsJoinChar (l : List String) (c : Char) : String :=
  match l with
  | [] => ""
  | [x] => x
  | x :: xs => x ++ String.mk [c] ++ jsJoinChar xs c

/-- The result record of `parseRoute`.  Fields that JavaScript leaves
`undefined` (`subID`, `httpMethod`, `error`) are `Option`s; `subID` starts
out as the empty string and is overwritten with a possibly-`undefined`
array element, hence `Option String` with initial value `some ""`. -/
structure RouteResult where
  «instance» : String
  subID : Option String
  serviceName : String
  httpMethod : Option String
  apiRoute : String
  error : Option String
deriving DecidableEq

/-- Lines 204–213 of the source: strip an optional `instance@` prefix and
split the instance segment on `-` (`instance = segments[0]`,
`subID = segments[1]`, which is `undefined` when there is no `-`).
Returns `(instance, subID, urlRoute)`. -/
def parseInstance (toValue : String) : String × Option String × String :=
  match jsIndexOfChar toValue '@' with
  | some atPos =>
    let instance0 := jsSubstring toValue 0 atPos
    let urlRoute := jsSubstringFrom toValue (atPos + 1)
    let segments := jsSplitChar instance0 '-'
    if segments.length > 0 then
      (segments.headD "", segments[1]?, urlRoute)
    else
      (instance0, some "", urlRoute)
  | none => ("", some "", toValue)

/-- Lines 218–225 of the source: the `http` rejoin special case, then
`serviceName = segments[0]` and `apiRoute = segments.join(':')`.  The
call site guarantees `segments` is nonempty (a split result), which is
why `segments[0]` can be read with a default here; `parseServiceRouteE`
models the reads exactly. -/
def extractService (segments : List String) : String × String :=
  let segments :=
    if jsStartsWith (segments.headD "") "http" then
      ((segments.headD "") ++ ":" ++ jsTemplate segments[1]?) :: segments.drop 2
    else segments
  (segments.headD "", jsJoinChar (segments.drop 1) ':')

/-- Lines 226–240 of the source: optional `[VERB]` extraction at the front
of `apiRoute`.  Returns `(httpMethod, apiRoute, error)`. -/
def parseHttpMethod (apiRoute : String) : Option String × String × Option String :=
  match jsIndexOfChar apiRoute '[' with
  | some 0 =>
    match jsIndexOfChar apiRoute ']' with
    | none => (none, apiRoute, some "route field has ill-formed HTTP method verb in segment")
    | some s2 =>
      let httpMethod := jsToLowerCase (jsSubstring apiRoute 1 s2)
      let s3 := jsLength httpMethod
      let apiRoute' :=
        if s3 > 0 then jsSubstring apiRoute (s3 + 2) (jsLength apiRoute) else apiRoute
      (some httpMethod, apiRoute', none)
  | _ => (none, apiRoute, none)

/-- Lines 214–241 of the source: split the route remainder on `:` (the
`< 1` guard is kept even though a split result is never empty), extract
the service name and handle the `[VERB]` prefix. -/
def parseServiceRoute (urlRoute : String) : String × Option String × String × Option String :=
  let segments := jsSplitChar urlRoute ':'
  if segments.length < 1 then
    ("", none, "", some "route field has invalid number of routable segments")
  else
    let sa := extractService segments
    let hae := parseHttpMethod sa.2
    (sa.1, hae.1, hae.2.1, hae.2.2)

/-- `parseRoute(toValue)` from the source. -/
def parseRoute (toValue : String) : RouteResult :=
  let isu := parseInstance toValue
  let r := parseServiceRoute isu.2.2
  { «instance» := isu.1, subID := isu.2.1, serviceName := r.1,
    httpMethod := r.2.1, apiRoute := r.2.2.1, error := r.2.2.2 }

/-- The intermediate `apiRoute` of `parseRoute` just before HTTP-method
extraction ("after service-name extraction"). -/
def routeRemainderApi (s : String) : String :=
  (extractService (jsSplitChar (parseInstance s).2.2 ':')).2

/-- A JavaScript property read on a possibly-`undefined` value: raises a
`TypeError` when the value is `undefined`. -/
def expectString (v : Option String) : Except String String :=
  match v with
  | some s => .ok s
  | none => .error "TypeError: cannot read properties of undefined"

/-- `extractService` with every JS property read that could raise made
explicit (`segments[0].indexOf`, and `segments[0]` again after the
`http` rejoin). -/
def extractServiceE (segments : List String) : Except String (String × String) :=
  match expectString segments[0]? with
  | .error e => .error e
  | .ok seg0 =>
    let segments :=
      if jsStartsWith seg0 "http" then
        (seg0 ++ ":" ++ jsTemplate segments[1]?) :: segments.drop 2
      else segments
    match expectString segments[0]? with
    | .error e => .error e
    | .ok serviceName => .ok (serviceName, jsJoinChar (segments.drop 1) ':')

/-- `parseHttpMethod` with the `httpMethod.length` read of line 235 made
explicit: it would raise a `TypeError` if `httpMethod` were still
`undefined` there. -/
def parseHttpMethodE (apiRoute : String) :
    Except String (Option String × String × Option String) :=
  match jsIndexOfChar apiRoute '[' with
  | some 0 =>
    match jsIndexOfChar apiRoute ']' with
    | none => .ok (none, apiRoute, some "route field has ill-formed HTTP method verb in segment")
    | some s2 =>
      let httpMethod : Option String := some (jsToLowerCase (jsSubstring apiRoute 1 s2))
      match expectString httpMethod with
      | .error e => .error e
      | .ok hm =>
        let s3 := jsLength hm
        .ok (httpMethod,
          if s3 > 0 then jsSubstring apiRoute (s3 + 2) (jsLength apiRoute) else apiRoute,
          none)
  | _ => .ok (none, apiRoute, none)

/-- `parseServiceRoute`, exception-faithful. -/
def parseServiceRouteE (urlRoute : String) :
    Except String (String × Option String × String × Option String) :=
  let segments := jsSplitChar urlRoute ':'
  if segments.length < 1 then
    .ok ("", none, "", some "route field has invalid number of routable segments")
  else
    match extractServiceE segments with
    | .error e => .error e
    | .ok sa =>
      match parseHttpMethodE sa.2 with
      | .error e => .error e
      | .ok hae => .ok (sa.1, hae.1, hae.2.1, hae.2.2)

/-- `parseRoute`, exception-faithful (the instance-prefix step uses only
total string operations: `indexOf`, `substring`, `split` and array
indexing, none of which can raise on a string input). -/
def parseRouteE (toValue : String) : Except String RouteResult :=
  let isu := parseInstance toValue
  match parseServiceRouteE isu.2.2 with
  | .error e => .error e
  | .ok r =>
    .ok { «instance» := isu.1, subID := isu.2.1, serviceName := r.1,
          httpMethod := r.2.1, apiRoute := r.2.2.1, error := r.2.2.2 }

theorem jsGet_nil (k : String) : jsGet [] k = .undefined := rfl

theorem hasOwn_nil (k : String) : hasOwn [] k = false := rfl

theorem jsGet_jsSet (o : JSObj) (k k' : String) (v : JSValue) :
    jsGet (jsSet o k' v) k = if k' = k then v else jsGet o k := by
  induction o with
  | nil => simp [jsSet, jsGet]
  | cons p rest ih =>
    obtain ⟨k'', v''⟩ := p
    by_cases h2 : k'' = k' <;> by_cases h3 : k' = k <;> simp_all [jsSet, jsGet]

theorem hasOwn_jsSet (o : JSObj) (k k' : String) (v : JSValue) :
    hasOwn (jsSet o k' v) k = if k' = k then true else hasOwn o k := by
  induction o with
  | nil => simp [jsSet, hasOwn]
  | cons p rest ih =>
    obtain ⟨k'', v''⟩ := p
    by_cases h2 : k'' = k' <;> by_cases h3 : k' = k <;> simp_all [jsSet, hasOwn]

theorem jsGet_messageToShort_to (m : JSObj) :
    jsGet (messageToShort m) "to" =
      if truthy (jsGet m "to") then jsGet m "to" else .undefined := by
  simp [messageToShort, apply_ite (fun o => jsGet o "to"), jsGet_jsSet, jsGet_nil]

theorem jsGet_messageToShort_frm (m : JSObj) :
    jsGet (messageToShort m) "frm" =
      if truthy (jsGet m "from") then jsGet m "from" else .undefined := by
  simp [messageToShort, apply_ite (fun o => jsGet o "frm"), jsGet_jsSet, jsGet_nil]

theorem jsGet_messageToShort_mid (m : JSObj) :
    jsGet (messageToShort m) "mid" =
      if truthy (jsGet m "mid") then jsGet m "mid" else .undefined := by
  simp [messageToShort, apply_ite (fun o => jsGet o "mid"), jsGet_jsSet, jsGet_nil]

theorem jsGet_messageToShort_rmid (m : JSObj) :
    jsGet (messageToShort m) "rmid" =
      if truthy (jsGet m "rmid") then jsGet m "rmid" else .undefined := by
  simp [messageToShort, apply_ite (fun o => jsGet o "rmid"), jsGet_jsSet, jsGet_nil]

theorem jsGet_messageToShort_ts (m : JSObj) :
    jsGet (messageToShort m) "ts" =
      if truthy (jsGet m "timestamp") then jsGet m "timestamp" else .undefined := by
  simp [messageToShort, apply_ite (fun o => jsGet o "ts"), jsGet_jsSet, jsGet_nil]

theorem jsGet_messageToShort_ver (m : JSObj) :
    jsGet (messageToShort m) "ver" =
      if truthy (jsGet m "version") then jsGet m "version" else .undefined := by
  simp [messageToShort, apply_ite (fun o => jsGet o "ver"), jsGet_jsSet, jsGet_nil]

theorem jsGet_messageToShort_via (m : JSObj) :
    jsGet (messageToShort m) "via" =
      if truthy (jsGet m "via") then jsGet m "via" else .undefined := by
  simp [messageToShort, apply_ite (fun o => jsGet o "via"), jsGet_jsSet, jsGet_nil]

theorem jsGet_messageToShort_for (m : JSObj) :
    jsGet (messageToShort m) "for" =
      if truthy (jsGet m "for") then jsGet m "for" else .undefined := by
  simp [messageToShort, apply_ite (fun o => jsGet o "for"), jsGet_jsSet, jsGet_nil]

theorem jsGet_messageToShort_bdy (m : JSObj) :
    jsGet (messageToShort m) "bdy" =
      if truthy (jsGet m "body") then jsGet m "body" else .undefined := by
  simp [messageToShort, apply_ite (fun o => jsGet o "bdy"), jsGet_jsSet, jsGet_nil]

theorem hasOwn_messageToShort_to (m : JSObj) :
    hasOwn (messageToShort m) "to" = truthy (jsGet m "to") := by
  simp [messageToShort, apply_ite (fun o => hasOwn o "to"), hasOwn_jsSet, hasOwn_nil]

theorem hasOwn_messageToShort_frm (m : JSObj) :
    hasOwn (messageToShort m) "frm" = truthy (jsGet m "from") := by
  simp [messageToShort, apply_ite (fun o => hasOwn o "frm"), hasOwn_jsSet, hasOwn_nil]

theorem hasOwn_messageToShort_mid (m : JSObj) :
    hasOwn (messageToShort m) "mid" = truthy (jsGet m "mid") := by
  simp [messageToShort, apply_ite (fun o => hasOwn o "mid"), hasOwn_jsSet, hasOwn_nil]

theorem hasOwn_messageToShort_rmid (m : JSObj) :
    hasOwn (messageToShort m) "rmid" = truthy (jsGet m "rmid") := by
  simp [messageToShort, apply_ite (fun o => hasOwn o "rmid"), hasOwn_jsSet, hasOwn_nil]

theorem hasOwn_messageToShort_ts (m : JSObj) :
    hasOwn (messageToShort m) "ts" = truthy (jsGet m "timestamp") := by
  simp [messageToShort, apply_ite (fun o => hasOwn o "ts"), hasOwn_jsSet, hasOwn_nil]

theorem hasOwn_messageToShort_ver (m : JSObj) :
    hasOwn (messageToShort m) "ver" = truthy (jsGet m "version") := by
  simp [messageToShort, apply_ite (fun o => hasOwn o "ver"), hasOwn_jsSet, hasOwn_nil]

theorem hasOwn_messageToShort_via (m : JSObj) :
    hasOwn (messageToShort m) "via" = truthy (jsGet m "via") := by
  simp [messageToShort, apply_ite (fun o => hasOwn o "via"), hasOwn_jsSet, hasOwn_nil]

theorem hasOwn_messageToShort_for (m : JSObj) :
    hasOwn (messageToShort m) "for" = truthy (jsGet m "for") := by
  simp [messageToShort, apply_ite (fun o => hasOwn o "for"), hasOwn_jsSet, hasOwn_nil]

theorem hasOwn_messageToShort_bdy (m : JSObj) :
    hasOwn (messageToShort m) "bdy" = truthy (jsGet m "body") := by
  simp [messageToShort, apply_ite (fun o => hasOwn o "bdy"), hasOwn_jsSet, hasOwn_nil]

theorem jsGet_messageToShort_from (m : JSObj) :
    jsGet (messageToShort m) "from" = .undefined := by
  simp [messageToShort, apply_ite (fun o => jsGet o "from"), jsGet_jsSet, jsGet_nil]

theorem jsGet_messageToShort_timestamp (m : JSObj) :
    jsGet (messageToShort m) "timestamp" = .undefined := by
  simp [messageToShort, apply_ite (fun o => jsGet o "timestamp"), jsGet_jsSet, jsGet_nil]

theorem jsGet_messageToShort_version (m : JSObj) :
    jsGet (messageToShort m) "version" = .undefined := by
  simp [messageToShort, apply_ite (fun o => jsGet o "version"), jsGet_jsSet, jsGet_nil]

theorem jsGet_messageToShort_body (m : JSObj) :
    jsGet (messageToShort m) "body" = .undefined := by
  simp [messageToShort, apply_ite (fun o => jsGet o "body"), jsGet_jsSet, jsGet_nil]

theorem hasOwn_messageToShort_from (m : JSObj) :
    hasOwn (messageToShort m) "from" = false := by
  simp [messageToShort, apply_ite (fun o => hasOwn o "from"), hasOwn_jsSet, hasOwn_nil]

theorem hasOwn_messageToShort_timestamp (m : JSObj) :
    hasOwn (messageToShort m) "timestamp" = false := by
  simp [messageToShort, apply_ite (fun o => hasOwn o "timestamp"), hasOwn_jsSet, hasOwn_nil]

theorem hasOwn_messageToShort_version (m : JSObj) :
    hasOwn (messageToShort m) "version" = false := by
  simp [messageToShort, apply_ite (fun o => hasOwn o "version"), hasOwn_jsSet, hasOwn_nil]

theorem hasOwn_messageToShort_body (m : JSObj) :
    hasOwn (messageToShort m) "body" = false := by
  simp [messageToShort, apply_ite (fun o => hasOwn o "body"), hasOwn_jsSet, hasOwn_nil]

theorem jsGet_messageToLong_to (m : JSObj) :
    jsGet (messageToLong m) "to" =
      if truthy (jsGet m "to") then jsGet m "to" else .undefined := by
  simp [messageToLong, apply_ite (fun o => jsGet o "to"), jsGet_jsSet, jsGet_nil]

theorem jsGet_messageToLong_from (m : JSObj) :
    jsGet (messageToLong m) "from" =
      if truthy (jsGet m "frm") then jsGet m "frm" else .undefined := by
  simp [messageToLong, apply_ite (fun o => jsGet o "from"), jsGet_jsSet, jsGet_nil]

theorem jsGet_messageToLong_mid (m : JSObj) :
    jsGet (messageToLong m) "mid" =
      if truthy (jsGet m "mid") then jsGet m "mid" else .undefined := by
  simp [messageToLong, apply_ite (fun o => jsGet o "mid"), jsGet_jsSet, jsGet_nil]

theorem jsGet_messageToLong_rmid (m : JSObj) :
    jsGet (messageToLong m) "rmid" =
      if truthy (jsGet m "rmid") then jsGet m "rmid" else .undefined := by
  simp [messageToLong, apply_ite (fun o => jsGet o "rmid"), jsGet_jsSet, jsGet_nil]

theorem jsGet_messageToLong_timestamp (m : JSObj) :
    jsGet (messageToLong m) "timestamp" =
      if truthy (jsGet m "ts") then jsGet m "ts" else .undefined := by
  simp [messageToLong, apply_ite (fun o => jsGet o "timestamp"), jsGet_jsSet, jsGet_nil]

theorem jsGet_messageToLong_version (m : JSObj) :
    jsGet (messageToLong m) "version" =
      if truthy (jsGet m "ver") then jsGet m "ver" else .undefined := by
  simp [messageToLong, apply_ite (fun o => jsGet o "version"), jsGet_jsSet, jsGet_nil]

theorem jsGet_messageToLong_via (m : JSObj) :
    jsGet (messageToLong m) "via" =
      if truthy (jsGet m "via") then jsGet m "via" else .undefined := by
  simp [messageToLong, apply_ite (fun o => jsGet o "via"), jsGet_jsSet, jsGet_nil]

theorem jsGet_messageToLong_for (m : JSObj) :
    jsGet (messageToLong m) "for" =
      if truthy (jsGet m "for") then jsGet m "for" else .undefined := by
  simp [messageToLong, apply_ite (fun o => jsGet o "for"), jsGet_jsSet, jsGet_nil]

theorem jsGet_messageToLong_body (m : JSObj) :
    jsGet (messageToLong m) "body" =
      if truthy (jsGet m "bdy") then jsGet m "bdy" else .undefined := by
  simp [messageToLong, apply_ite (fun o => jsGet o "body"), jsGet_jsSet, jsGet_nil]

theorem hasOwn_messageToLong_to (m : JSObj) :
    hasOwn (messageToLong m) "to" = truthy (jsGet m "to") := by
  simp [messageToLong, apply_ite (fun o => hasOwn o "to"), hasOwn_jsSet, hasOwn_nil]

theorem hasOwn_messageToLong_from (m : JSObj) :
    hasOwn (messageToLong m) "from" = truthy (jsGet m "frm") := by
  simp [messageToLong, apply_ite (fun o => hasOwn o "from"), hasOwn_jsSet, hasOwn_nil]

theorem hasOwn_messageToLong_mid (m : JSObj) :
    hasOwn (messageToLong m) "mid" = truthy (jsGet m "mid") := by
  simp [messageToLong, apply_ite (fun o => hasOwn o "mid"), hasOwn_jsSet, hasOwn_nil]

theorem hasOwn_messageToLong_rmid (m : JSObj) :
    hasOwn (messageToLong m) "rmid" = truthy (jsGet m "rmid") := by
  simp [messageToLong, apply_ite (fun o => hasOwn o "rmid"), hasOwn_jsSet, hasOwn_nil]

theorem hasOwn_messageToLong_timestamp (m : JSObj) :
    hasOwn (messageToLong m) "timestamp" = truthy (jsGet m "ts") := by
  simp [messageToLong, apply_ite (fun o => hasOwn o "timestamp"), hasOwn_jsSet, hasOwn_nil]

theorem hasOwn_messageToLong_version (m : JSObj) :
    hasOwn (messageToLong m) "version" = truthy (jsGet m "ver") := by
  simp [messageToLong, apply_ite (fun o => hasOwn o "version"), hasOwn_jsSet, hasOwn_nil]

theorem hasOwn_messageToLong_via (m : JSObj) :
    hasOwn (messageToLong m) "via" = truthy (jsGet m "via") := by
  simp [messageToLong, apply_ite (fun o => hasOwn o "via"), hasOwn_jsSet, hasOwn_nil]

theorem hasOwn_messageToLong_for (m : JSObj) :
    hasOwn (messageToLong m) "for" = truthy (jsGet m "for") := by
  simp [messageToLong, apply_ite (fun o => hasOwn o "for"), hasOwn_jsSet, hasOwn_nil]

theorem hasOwn_messageToLong_body (m : JSObj) :
    hasOwn (messageToLong m) "body" = truthy (jsGet m "bdy") := by
  simp [messageToLong, apply_ite (fun o => hasOwn o "body"), hasOwn_jsSet, hasOwn_nil]

theorem hasOwn_messageToLong_frm (m : JSObj) :
    hasOwn (messageToLong m) "frm" = false := by
  simp [messageToLong, apply_ite (fun o => hasOwn o "frm"), hasOwn_jsSet, hasOwn_nil]

theorem hasOwn_messageToLong_ts (m : JSObj) :
    hasOwn (messageToLong m) "ts" = false := by
  simp [messageToLong, apply_ite (fun o => hasOwn o "ts"), hasOwn_jsSet, hasOwn_nil]

theorem hasOwn_messageToLong_ver (m : JSObj) :
    hasOwn (messageToLong m) "ver" = false := by
  simp [messageToLong, apply_ite (fun o => hasOwn o "ver"), hasOwn_jsSet, hasOwn_nil]

theorem hasOwn_messageToLong_bdy (m : JSObj) :
    hasOwn (messageToLong m) "bdy" = false := by
  simp [messageToLong, apply_ite (fun o => hasOwn o "bdy"), hasOwn_jsSet, hasOwn_nil]

theorem truthy_undefined : truthy .undefined = false := rfl

theorem truthy_ite_truthy (v : JSValue) :
    truthy (if truthy v then v else .undefined) = truthy v := by
  cases h : truthy v <;> simp [h, truthy_undefined]

theorem ite_ite_same {α : Type} (c : Prop) [Decidable c] (a b : α) :
    (if c then (if c then a else b) else b) = if c then a else b := by
  by_cases h : c <;> simp [h]

/-- C4: `messageToLong ∘ messageToShort` preserves exactly the truthy
long-named (and shared-named) fields of `m` — value preserved when truthy,
key absent when absent/falsy, and no short-named key is introduced —
and symmetrically `messageToShort ∘ messageToLong` preserves exactly the
truthy short-named fields. -/
theorem messageToShort_messageToLong_roundtrip (m : JSObj) :
    (jsGet (messageToLong (messageToShort m)) "to"
        = (if truthy (jsGet m "to") then jsGet m "to" else .undefined) ∧
     jsGet (messageToLong (messageToShort m)) "from"
        = (if truthy (jsGet m "from") then jsGet m "from" else .undefined) ∧
     jsGet (messageToLong (messageToShort m)) "mid"
        = (if truthy (jsGet m "mid") then jsGet m "mid" else .undefined) ∧
     jsGet (messageToLong (messageToShort m)) "rmid"
        = (if truthy (jsGet m "rmid") then jsGet m "rmid" else .undefined) ∧
     jsGet (messageToLong (messageToShort m)) "timestamp"
        = (if truthy (jsGet m "timestamp") then jsGet m "timestamp" else .undefined) ∧
     jsGet (messageToLong (messageToShort m)) "version"
        = (if truthy (jsGet m "version") then jsGet m "version" else .undefined) ∧
     jsGet (messageToLong (messageToShort m)) "via"
        = (if truthy (jsGet m "via") then jsGet m "via" else .undefined) ∧
     jsGet (messageToLong (messageToShort m)) "for"
        = (if truthy (jsGet m "for") then jsGet m "for" else .undefined) ∧
     jsGet (messageToLong (messageToShort m)) "body"
        = (if truthy (jsGet m "body") then jsGet m "body" else .undefined)) ∧
    (hasOwn (messageToLong (messageToShort m)) "to" = truthy (jsGet m "to") ∧
     hasOwn (messageToLong (messageToShort m)) "from" = truthy (jsGet m "from") ∧
     hasOwn (messageToLong (messageToShort m)) "mid" = truthy (jsGet m "mid") ∧
     hasOwn (messageToLong (messageToShort m)) "rmid" = truthy (jsGet m "rmid") ∧
     hasOwn (messageToLong (messageToShort m)) "timestamp" = truthy (jsGet m "timestamp") ∧
     hasOwn (messageToLong (messageToShort m)) "version" = truthy (jsGet m "version") ∧
     hasOwn (messageToLong (messageToShort m)) "via" = truthy (jsGet m "via") ∧
     hasOwn (messageToLong (messageToShort m)) "for" = truthy (jsGet m "for") ∧
     hasOwn (messageToLong (messageToShort m)) "body" = truthy (jsGet m "body")) ∧
    (hasOwn (messageToLong (messageToShort m)) "frm" = false ∧
     hasOwn (messageToLong (messageToShort m)) "ts" = false ∧
     hasOwn (messageToLong (messageToShort m)) "ver" = false ∧
     hasOwn (messageToLong (messageToShort m)) "bdy" = false) ∧
    (jsGet (messageToShort (messageToLong m)) "to"
        = (if truthy (jsGet m "to") then jsGet m "to" else .undefined) ∧
     jsGet (messageToShort (messageToLong m)) "frm"
        = (if truthy (jsGet m "frm") then jsGet m "frm" else .undefined) ∧
     jsGet (messageToShort (messageToLong m)) "mid"
        = (if truthy (jsGet m "mid") then jsGet m "mid" else .undefined) ∧
     jsGet (messageToShort (messageToLong m)) "rmid"
        = (if truthy (jsGet m "rmid") then jsGet m "rmid" else .undefined) ∧
     jsGet (messageToShort (messageToLong m)) "ts"
        = (if truthy (jsGet m "ts") then jsGet m "ts" else .undefined) ∧
     jsGet (messageToShort (messageToLong m)) "ver"
        = (if truthy (jsGet m "ver") then jsGet m "ver" else .undefined) ∧
     jsGet (messageToShort (messageToLong m)) "via"
        = (if truthy (jsGet m "via") then jsGet m "via" else .undefined) ∧
     jsGet (messageToShort (messageToLong m)) "for"
        = (if truthy (jsGet m "for") then jsGet m "for" else .undefined) ∧
     jsGet (messageToShort (messageToLong m)) "bdy"
        = (if truthy (jsGet m "bdy") then jsGet m "bdy" else .undefined)) ∧
    (hasOwn (messageToShort (messageToLong m)) "to" = truthy (jsGet m "to") ∧
     hasOwn (messageToShort (messageToLong m)) "frm" = truthy (jsGet m "frm") ∧
     hasOwn (messageToShort (messageToLong m)) "mid" = truthy (jsGet m "mid") ∧
     hasOwn (messageToShort (messageToLong m)) "rmid" = truthy (jsGet m "rmid") ∧
     hasOwn (messageToShort (messageToLong m)) "ts" = truthy (jsGet m "ts") ∧
     hasOwn (messageToShort (messageToLong m)) "ver" = truthy (jsGet m "ver") ∧
     hasOwn (messageToShort (messageToLong m)) "via" = truthy (jsGet m "via") ∧
     hasOwn (messageToShort (messageToLong m)) "for" = truthy (jsGet m "for") ∧
     hasOwn (messageToShort (messageToLong m)) "bdy" = truthy (jsGet m "bdy")) ∧
    (hasOwn (messageToShort (messageToLong m)) "from" = false ∧
     hasOwn (messageToShort (messageToLong m)) "timestamp" = false ∧
     hasOwn (messageToShort (messageToLong m)) "version" = false ∧
     hasOwn (messageToShort (messageToLong m)) "body" = false) := by
  refine ⟨⟨?_, ?_, ?_, ?_, ?_, ?_, ?_, ?_, ?_⟩, ⟨?_, ?_, ?_, ?_, ?_, ?_, ?_, ?_, ?_⟩,
    ⟨?_, ?_, ?_, ?_⟩, ⟨?_, ?_, ?_, ?_, ?_, ?_, ?_, ?_, ?_⟩,
    ⟨?_, ?_, ?_, ?_, ?_, ?_, ?_, ?_, ?_⟩, ⟨?_, ?_, ?_, ?_⟩⟩ <;>
  simp only [jsGet_messageToLong_to, jsGet_messageToLong_from, jsGet_messageToLong_mid,
    jsGet_messageToLong_rmid, jsGet_messageToLong_timestamp, jsGet_messageToLong_version,
    jsGet_messageToLong_via, jsGet_messageToLong_for, jsGet_messageToLong_body,
    hasOwn_messageToLong_to, hasOwn_messageToLong_from, hasOwn_messageToLong_mid,
    hasOwn_messageToLong_rmid, hasOwn_messageToLong_timestamp, hasOwn_messageToLong_version,
    hasOwn_messageToLong_via, hasOwn_messageToLong_for, hasOwn_messageToLong_body,
    hasOwn_messageToLong_frm, hasOwn_messageToLong_ts, hasOwn_messageToLong_ver,
    hasOwn_messageToLong_bdy,
    jsGet_messageToShort_to, jsGet_messageToShort_frm, jsGet_messageToShort_mid,
    jsGet_messageToShort_rmid, jsGet_messageToShort_ts, jsGet_messageToShort_ver,
    jsGet_messageToShort_via, jsGet_messageToShort_for, jsGet_messageToShort_bdy,
    hasOwn_messageToShort_to, hasOwn_messageToShort_frm, hasOwn_messageToShort_mid,
    hasOwn_messageToShort_rmid, hasOwn_messageToShort_ts, hasOwn_messageToShort_ver,
    hasOwn_messageToShort_via, hasOwn_messageToShort_for, hasOwn_messageToShort_bdy,
    hasOwn_messageToShort_from, hasOwn_messageToShort_timestamp,
    hasOwn_messageToShort_version, hasOwn_messageToShort_body,
    truthy_ite_truthy, ite_ite_same]

/-- C10: `messageToShort` reads only the long names of dual-named fields —
`frm`/`ts`/`ver`/`bdy` appear in its output exactly when `from`/
`timestamp`/`version`/`body` are truthy in the input — so applying it to
its own output drops those four fields, and applying it to an
already-short message is not the identity. -/
theorem messageToShort_reads_only_long_names (m : JSObj) :
    (hasOwn (messageToShort m) "frm" = truthy (jsGet m "from") ∧
     hasOwn (messageToShort m) "ts" = truthy (jsGet m "timestamp") ∧
     hasOwn (messageToShort m) "ver" = truthy (jsGet m "version") ∧
     hasOwn (messageToShort m) "bdy" = truthy (jsGet m "body")) ∧
    (hasOwn (messageToShort (messageToShort m)) "frm" = false ∧
     hasOwn (messageToShort (messageToShort m)) "ts" = false ∧
     hasOwn (messageToShort (messageToShort m)) "ver" = false ∧
     hasOwn (messageToShort (messageToShort m)) "bdy" = false) ∧
    messageToShort [("to", JSValue.vstr "a"), ("frm", JSValue.vstr "b")] ≠
      [("to", JSValue.vstr "a"), ("frm", JSValue.vstr "b")] := by
  refine ⟨⟨?_, ?_, ?_, ?_⟩, ⟨?_, ?_, ?_, ?_⟩, ?_⟩
  all_goals try simp only [hasOwn_messageToShort_frm, hasOwn_messageToShort_ts,
      hasOwn_messageToShort_ver, hasOwn_messageToShort_bdy,
      jsGet_messageToShort_from, jsGet_messageToShort_timestamp,
      jsGet_messageToShort_version, jsGet_messageToShort_body, truthy_undefined]
  rw [show messageToShort [("to", JSValue.vstr "a"), ("frm", JSValue.vstr "b")] =
      [("to", JSValue.vstr "a")] from rfl]
  intro h
  exact absurd (congrArg List.length h) (by decide)

/-- C3: `validateMessage` is true exactly when `to` is truthy, one of
`from`/`frm` is truthy and one of `body`/`bdy` is truthy. -/
theorem validateMessage_iff (m : JSObj) :
    validateMessage m = true ↔
      (truthy (jsGet m "to") = true ∧
       (truthy (jsGet m "from") = true ∨ truthy (jsGet m "frm") = true) ∧
       (truthy (jsGet m "body") = true ∨ truthy (jsGet m "bdy") = true)) := by
  unfold validateMessage
  cases h1 : truthy (jsGet m "to") <;> cases h2 : truthy (jsGet m "from") <;>
    cases h3 : truthy (jsGet m "frm") <;> cases h4 : truthy (jsGet m "body") <;>
    cases h5 : truthy (jsGet m "bdy") <;> simp_all

/-- C2: the Proxy `get` trap resolves each dual-named field requested by
its other form's name to the physically stored field, but the `set` trap
raises `ReferenceError` on every invocation because its conditions read
the undeclared identifier `name`; writes never succeed, contradicting the
spec's write-transparency. -/
theorem createMessage_proxy_read_write (obj : JSObj) :
    (proxyGet true obj "from" = jsGet obj "frm" ∧
     proxyGet true obj "timestamp" = jsGet obj "ts" ∧
     proxyGet true obj "version" = jsGet obj "ver" ∧
     proxyGet true obj "body" = jsGet obj "bdy" ∧
     proxyGet false obj "frm" = jsGet obj "from" ∧
     proxyGet false obj "ts" = jsGet obj "timestamp" ∧
     proxyGet false obj "ver" = jsGet obj "version" ∧
     proxyGet false obj "bdy" = jsGet obj "body" ∧
     proxyGet true obj "mid" = jsGet obj "mid" ∧
     proxyGet false obj "mid" = jsGet obj "mid") ∧
    (∀ (shortFormat : Bool) (prop : String) (value : JSValue),
      proxySet shortFormat obj prop value =
        Except.error "ReferenceError: name is not defined") :=
  ⟨⟨rfl, rfl, rfl, rfl, rfl, rfl, rfl, rfl, rfl, rfl⟩, fun _ _ _ => rfl⟩

theorem objAssign_nil (t : JSObj) : objAssign t [] = t := rfl

theorem objAssign_cons (t : JSObj) (p : String × JSValue) (s : List (String × JSValue)) :
    objAssign t (p :: s) = objAssign (jsSet t p.1 p.2) s := rfl

theorem hasOwn_false_of_not_mem (s : JSObj) (k : String)
    (h : k ∉ s.map Prod.fst) : hasOwn s k = false := by
  induction s with
  | nil => rfl
  | cons p rest ih =>
    obtain ⟨k', v⟩ := p
    simp only [List.map_cons, List.mem_cons] at h
    push_neg at h
    simp [hasOwn, ih h.2, Ne.symm h.1]

theorem hasOwn_objAssign (s : List (String × JSValue)) (t : JSObj) (k : String) :
    hasOwn (objAssign t s) k = (hasOwn t k || hasOwn s k) := by
  induction s generalizing t with
  | nil => simp [objAssign_nil, hasOwn]
  | cons p rest ih =>
    obtain ⟨k', v⟩ := p
    rw [objAssign_cons, ih, hasOwn_jsSet]
    by_cases h : k' = k <;> simp [h, hasOwn]

theorem jsGet_objAssign (s : List (String × JSValue)) (t : JSObj) (k : String)
    (hnd : (s.map Prod.fst).Nodup) :
    jsGet (objAssign t s) k = if hasOwn s k = true then jsGet s k else jsGet t k := by
  induction s generalizing t with
  | nil => simp [objAssign_nil, hasOwn, jsGet]
  | cons p rest ih =>
    obtain ⟨k', v⟩ := p
    simp only [List.map_cons, List.nodup_cons] at hnd
    rw [objAssign_cons, ih _ hnd.2]
    by_cases h : k' = k
    · subst h
      rw [hasOwn_false_of_not_mem rest k' hnd.1]
      simp [hasOwn, jsGet, jsGet_jsSet]
    · simp [hasOwn, jsGet, jsGet_jsSet, h, Ne.symm h]

theorem createMessage_long_eq (genMid genTs : String) (m : JSObj) :
    createMessage genMid genTs m false =
      objAssign [("mid", .vstr genMid), ("timestamp", .vstr genTs),
        ("version", .vstr UMF_VERSION)] m := by
  simp [createMessage]

theorem createMessage_short_eq (genMid genTs : String) (m : JSObj) :
    createMessage genMid genTs m true =
      objAssign [("mid", .vstr genMid), ("ts", .vstr genTs),
        ("ver", .vstr UMF_VERSION)] m := by
  simp [createMessage]

/-- C8 (amended): for every overrides object `m` (with JS-object keys,
i.e. no duplicates) and non-empty generator outputs, the message from
`createMessage(m, false)` always has `mid`, `timestamp`, `version`
present, and `createMessage(m, true)` always has `mid`, `ts`, `ver`
present; each such field is truthy (non-empty) unless the caller's
overrides bound that very field to a falsy value, in which case the
override's falsy value wins. -/
theorem createMessage_defaults (genMid genTs : String) (m : JSObj)
    (hg : genMid ≠ "") (ht : genTs ≠ "") (hnd : (m.map Prod.fst).Nodup) :
    (hasOwn (createMessage genMid genTs m false) "mid" = true ∧
     hasOwn (createMessage genMid genTs m false) "timestamp" = true ∧
     hasOwn (createMessage genMid genTs m false) "version" = true ∧
     hasOwn (createMessage genMid genTs m true) "mid" = true ∧
     hasOwn (createMessage genMid genTs m true) "ts" = true ∧
     hasOwn (createMessage genMid genTs m true) "ver" = true) ∧
    (truthy (jsGet (createMessage genMid genTs m false) "mid")
        = (if hasOwn m "mid" = true then truthy (jsGet m "mid") else true) ∧
     truthy (jsGet (createMessage genMid genTs m false) "timestamp")
        = (if hasOwn m "timestamp" = true then truthy (jsGet m "timestamp") else true) ∧
     truthy (jsGet (createMessage genMid genTs m false) "version")
        = (if hasOwn m "version" = true then truthy (jsGet m "version") else true) ∧
     truthy (jsGet (createMessage genMid genTs m true) "mid")
        = (if hasOwn m "mid" = true then truthy (jsGet m "mid") else true) ∧
     truthy (jsGet (createMessage genMid genTs m true) "ts")
        = (if hasOwn m "ts" = true then truthy (jsGet m "ts") else true) ∧
     truthy (jsGet (createMessage genMid genTs m true) "ver")
        = (if hasOwn m "ver" = true then truthy (jsGet m "ver") else true)) := by
  refine ⟨⟨?_, ?_, ?_, ?_, ?_, ?_⟩, ?_, ?_, ?_, ?_, ?_, ?_⟩
  all_goals first
    | (rw [createMessage_long_eq, hasOwn_objAssign]; simp [hasOwn])
    | (rw [createMessage_short_eq, hasOwn_objAssign]; simp [hasOwn])
    | (rw [createMessage_long_eq, jsGet_objAssign _ _ _ hnd, apply_ite truthy];
       simp [jsGet, truthy, hg, ht, UMF_VERSION])
    | (rw [createMessage_short_eq, jsGet_objAssign _ _ _ hnd, apply_ite truthy];
       simp [jsGet, truthy, hg, ht, UMF_VERSION])

/-- C8 witness: a concrete instantiation of `createMessage_defaults`. -/
theorem createMessage_defaults_witness :
    truthy (jsGet (createMessage "abc" "2016-01-01T00:00:00Z" [("to", JSValue.vstr "x")] false)
        "mid")
      = (if hasOwn [("to", JSValue.vstr "x")] "mid" = true
         then truthy (jsGet [("to", JSValue.vstr "x")] "mid") else true) :=
  (createMessage_defaults "abc" "2016-01-01T00:00:00Z" [("to", JSValue.vstr "x")]
    (by decide) (by decide) (by simp)).2.1

/-- C8 counterexample: overriding `mid` with the empty string makes the
long-form message's `mid` present but empty (falsy), so `createMessage`
does not return a non-empty `mid` for *every* overrides object. -/
theorem createMessage_empty_mid_override_counterexample :
    hasOwn (createMessage "gen-mid" "gen-ts" [("mid", JSValue.vstr "")] false) "mid" = true ∧
    jsGet (createMessage "gen-mid" "gen-ts" [("mid", JSValue.vstr "")] false) "mid"
      = JSValue.vstr "" ∧
    truthy (jsGet (createMessage "gen-mid" "gen-ts" [("mid", JSValue.vstr "")] false) "mid")
      = false :=
  ⟨rfl, rfl, rfl⟩

theorem splitOnCharList_ne_nil (c : Char) (l : List Char) : splitOnCharList c l ≠ [] := by
  induction l with
  | nil => simp [splitOnCharList]
  | cons x xs ih =>
    by_cases hx : x = c
    · simp [splitOnCharList, hx]
    · simp only [splitOnCharList, hx, if_false]
      cases h : splitOnCharList c xs with
      | nil => simp
      | cons y ys => simp

theorem jsSplitChar_ne_nil (s : String) (c : Char) : jsSplitChar s c ≠ [] := by
  unfold jsSplitChar
  simp [splitOnCharList_ne_nil]

theorem jsIndexOfChar_lt_length (s : String) (c : Char) (i : Nat)
    (h : jsIndexOfChar s c = some i) : i < s.toList.length := by
  unfold jsIndexOfChar at h
  exact (List.findIdx?_eq_some_iff_findIdx_eq.mp h).1

theorem jsSubstring_zero (s : String) (i : Nat) (hi : i ≤ s.toList.length) :
    jsSubstring s 0 i = String.mk (s.toList.take i) := by
  simp [jsSubstring, min_eq_left (show i ≤ s.length by simpa using hi)]

theorem parseRoute_instance_eq (s : String) :
    (parseRoute s).«instance» = (parseInstance s).1 := rfl

theorem parseRoute_subID_eq (s : String) :
    (parseRoute s).subID = (parseInstance s).2.1 := rfl

theorem parseRoute_serviceName_eq (s : String) :
    (parseRoute s).serviceName = (parseServiceRoute (parseInstance s).2.2).1 := rfl

theorem parseRoute_httpMethod_eq (s : String) :
    (parseRoute s).httpMethod = (parseServiceRoute (parseInstance s).2.2).2.1 := rfl

theorem parseRoute_apiRoute_eq (s : String) :
    (parseRoute s).apiRoute = (parseServiceRoute (parseInstance s).2.2).2.2.1 := rfl

theorem parseRoute_error_eq (s : String) :
    (parseRoute s).error = (parseServiceRoute (parseInstance s).2.2).2.2.2 := rfl

/-- C5: with an `@` present, `parseRoute` splits the text before the first
`@` on `-`, takes the first token as `instance` and the second (when
present) as `subID`, ignoring all later tokens; with no `@`, `instance`
and `subID` stay empty and the whole input is parsed as the route
remainder. -/
theorem parseRoute_instance_subID (s : String) :
    (∀ i, jsIndexOfChar s '@' = some i →
       (parseRoute s).«instance» =
           (jsSplitChar (String.mk (s.toList.take i)) '-').headD "" ∧
       (parseRoute s).subID = (jsSplitChar (String.mk (s.toList.take i)) '-')[1]?) ∧
    (jsIndexOfChar s '@' = none →
       (parseRoute s).«instance» = "" ∧ (parseRoute s).subID = some "" ∧
       ((parseRoute s).serviceName, (parseRoute s).httpMethod, (parseRoute s).apiRoute,
          (parseRoute s).error) = parseServiceRoute s) := by
  refine ⟨fun i hi => ?_, fun hn => ?_⟩
  · have hle : i ≤ s.toList.length := le_of_lt (jsIndexOfChar_lt_length s '@' i hi)
    have hpi : parseInstance s =
        ((jsSplitChar (String.mk (s.toList.take i)) '-').headD "",
         (jsSplitChar (String.mk (s.toList.take i)) '-')[1]?,
         jsSubstringFrom s (i + 1)) := by
      unfold parseInstance
      rw [hi]
      simp only [jsSubstring_zero s i hle]
      rw [if_pos (List.length_pos.mpr (jsSplitChar_ne_nil _ '-'))]
    exact ⟨by rw [parseRoute_instance_eq, hpi], by rw [parseRoute_subID_eq, hpi]⟩
  · have hpi : parseInstance s = ("", some "", s) := by
      unfold parseInstance
      rw [hn]
    refine ⟨by rw [parseRoute_instance_eq, hpi], by rw [parseRoute_subID_eq, hpi], ?_⟩
    rw [parseRoute_serviceName_eq, parseRoute_httpMethod_eq, parseRoute_apiRoute_eq,
      parseRoute_error_eq, hpi]

/-- C5 witness: concrete routes with and without an `@`. -/
theorem parseRoute_instance_subID_witness :
    ((parseRoute "a-b-c@x:y").«instance» =
        (jsSplitChar (String.mk ((String.toList "a-b-c@x:y").take 5)) '-').headD "" ∧
     (parseRoute "a-b-c@x:y").subID =
        (jsSplitChar (String.mk ((String.toList "a-b-c@x:y").take 5)) '-')[1]?) ∧
    ((parseRoute "x:y").«instance» = "" ∧ (parseRoute "x:y").subID = some "" ∧
     ((parseRoute "x:y").serviceName, (parseRoute "x:y").httpMethod,
        (parseRoute "x:y").apiRoute, (parseRoute "x:y").error) = parseServiceRoute "x:y") :=
  ⟨(parseRoute_instance_subID "a-b-c@x:y").1 5 (by decide),
   (parseRoute_instance_subID "x:y").2 (by decide)⟩

theorem jsIndexOfChar_of_take_one (a : String) (c : Char) (h : a.toList.take 1 = [c]) :
    jsIndexOfChar a c = some 0 := by
  unfold jsIndexOfChar
  cases hl : a.toList with
  | nil => rw [hl] at h; simp at h
  | cons x t =>
    rw [hl] at h
    simp at h
    simp [List.findIdx?_cons, h]

theorem bracket_close_pos (a : String) (s2 : Nat) (hhead : a.toList.take 1 = ['['])
    (h : jsIndexOfChar a ']' = some s2) : 1 ≤ s2 := by
  by_contra hc
  have hz : s2 = 0 := by omega
  subst hz
  unfold jsIndexOfChar at h
  cases hl : a.toList with
  | nil => rw [hl] at h; simp at h
  | cons x t =>
    rw [hl] at hhead h
    simp at hhead
    simp [List.findIdx?_cons] at h
    rw [hhead] at h
    exact absurd h (by decide)

theorem jsSubstring_one (a : String) (s2 : Nat) (h1 : 1 ≤ s2) (h2 : s2 ≤ a.toList.length) :
    jsSubstring a 1 s2 = String.mk ((a.toList.take s2).drop 1) := by
  have hl1 : 1 ≤ a.length := by
    have := le_trans h1 h2
    simpa using this
  simp [jsSubstring, min_eq_left (show s2 ≤ a.length by simpa using h2),
    min_eq_left hl1, max_eq_right h1, min_eq_left h1]

theorem jsSubstring_to_end (a : String) (k : Nat) (hk : k ≤ a.toList.length) :
    jsSubstring a k (jsLength a) = String.mk (a.toList.drop k) := by
  simp [jsSubstring, jsLength, min_eq_left (show k ≤ a.length by simpa using hk),
    max_eq_right (show k ≤ a.length by simpa using hk)]
  rw [show a.length = a.data.length from rfl, List.take_length]

theorem jsToLowerCase_mk (l : List Char) :
    jsToLowerCase (String.mk l) = String.mk (l.map Char.toLower) := rfl

/-- Characterization of the HTTP-method extraction step on an `apiRoute`
beginning with `[`: missing `]` sets the ill-formed-verb error; otherwise
the text strictly between the brackets, lower-cased, becomes the method,
and the bracketed prefix is stripped exactly when the method text is
non-empty (`s2 = 1` means `[]`, which is left in place). -/
theorem parseHttpMethod_spec (a : String) (h : a.toList.take 1 = ['[']) :
    (jsIndexOfChar a ']' = none →
       parseHttpMethod a =
         (none, a, some "route field has ill-formed HTTP method verb in segment")) ∧
    (∀ s2, jsIndexOfChar a ']' = some s2 →
       parseHttpMethod a =
         (some (String.mk (((a.toList.take s2).drop 1).map Char.toLower)),
          if s2 = 1 then a else String.mk (a.toList.drop (s2 + 1)),
          none)) := by
  have hopen : jsIndexOfChar a '[' = some 0 := jsIndexOfChar_of_take_one a '[' h
  refine ⟨fun hn => ?_, fun s2 hs => ?_⟩
  · unfold parseHttpMethod
    rw [hopen, hn]
  · have h1 : 1 ≤ s2 := bracket_close_pos a s2 h hs
    have h2 : s2 < a.toList.length := jsIndexOfChar_lt_length a ']' s2 hs
    unfold parseHttpMethod
    rw [hopen, hs]
    show (some (jsToLowerCase (jsSubstring a 1 s2)),
          (if jsLength (jsToLowerCase (jsSubstring a 1 s2)) > 0 then
             jsSubstring a (jsLength (jsToLowerCase (jsSubstring a 1 s2)) + 2) (jsLength a)
           else a), none) = _
    rw [jsSubstring_one a s2 h1 (le_of_lt h2), jsToLowerCase_mk]
    have hlen : jsLength (String.mk (((a.toList.take s2).drop 1).map Char.toLower)) = s2 - 1 := by
      simp [jsLength, min_eq_left (show s2 ≤ a.length by simpa using le_of_lt h2)]
    rw [hlen]
    by_cases hone : s2 = 1
    · subst hone
      simp
    · rw [if_pos (by omega : s2 - 1 > 0), if_neg hone,
        (by omega : s2 - 1 + 2 = s2 + 1), jsSubstring_to_end a (s2 + 1) (by omega)]

theorem parseServiceRoute_eq (u : String) :
    parseServiceRoute u =
      ((extractService (jsSplitChar u ':')).1,
       (parseHttpMethod (extractService (jsSplitChar u ':')).2).1,
       (parseHttpMethod (extractService (jsSplitChar u ':')).2).2.1,
       (parseHttpMethod (extractService (jsSplitChar u ':')).2).2.2) := by
  have hpos := List.length_pos.mpr (jsSplitChar_ne_nil u ':')
  unfold parseServiceRoute
  rw [if_neg (by omega)]

/-- C6 (amended): whenever the intermediate `apiRoute` (the part of the
route remainder after the service name) begins with `[`, a missing `]`
yields the ill-formed-verb error; otherwise the text strictly between the
brackets, lower-cased, becomes `httpMethod`, and the bracketed prefix is
stripped from the front of `apiRoute` exactly when the method text is
non-empty (an empty `[]` leaves `apiRoute` unchanged). -/
theorem parseRoute_httpMethod_extraction (s : String)
    (h : (routeRemainderApi s).toList.take 1 = ['[']) :
    (jsIndexOfChar (routeRemainderApi s) ']' = none →
       (parseRoute s).httpMethod = none ∧
       (parseRoute s).error =
         some "route field has ill-formed HTTP method verb in segment") ∧
    (∀ s2, jsIndexOfChar (routeRemainderApi s) ']' = some s2 →
       (parseRoute s).error = none ∧
       (parseRoute s).httpMethod =
         some (String.mk ((((routeRemainderApi s).toList.take s2).drop 1).map Char.toLower)) ∧
       (parseRoute s).apiRoute =
         (if s2 = 1 then routeRemainderApi s
          else String.mk ((routeRemainderApi s).toList.drop (s2 + 1)))) := by
  have hsp := parseHttpMethod_spec (routeRemainderApi s) h
  have hm : (parseRoute s).httpMethod = (parseHttpMethod (routeRemainderApi s)).1 := by
    rw [parseRoute_httpMethod_eq, parseServiceRoute_eq]
    rfl
  have ha : (parseRoute s).apiRoute = (parseHttpMethod (routeRemainderApi s)).2.1 := by
    rw [parseRoute_apiRoute_eq, parseServiceRoute_eq]
    rfl
  have he : (parseRoute s).error = (parseHttpMethod (routeRemainderApi s)).2.2 := by
    rw [parseRoute_error_eq, parseServiceRoute_eq]
    rfl
  refine ⟨fun hn => ?_, fun s2 hs => ?_⟩
  · rw [hsp.1 hn] at hm he
    exact ⟨hm, he⟩
  · rw [hsp.2 s2 hs] at hm ha he
    exact ⟨he, hm, ha⟩

/-- C6 witness: a route with an unterminated `[GET` gets the error, and a
well-formed `[GET]` is extracted and lower-cased. -/
theorem parseRoute_httpMethod_extraction_witness :
    (parseRoute "service:[GET").error =
        some "route field has ill-formed HTTP method verb in segment" ∧
    (parseRoute "service:[GET]/x").httpMethod =
        some (String.mk ((((routeRemainderApi "service:[GET]/x").toList.take 4).drop 1).map
          Char.toLower)) :=
  ⟨((parseRoute_httpMethod_extraction "service:[GET" (by decide)).1 (by decide)).2,
   ((parseRoute_httpMethod_extraction "service:[GET]/x" (by decide)).2 4 (by decide)).2.1⟩

/-- C6 counterexample: for `service:[]/x` the bracketed method text is
empty, `httpMethod` becomes the empty string, and the `[]` prefix is NOT
stripped from `apiRoute`, contrary to the claim's unconditional
stripping. -/
theorem parseRoute_empty_method_counterexample :
    (parseRoute "service:[]/x").httpMethod = some "" ∧
    (parseRoute "service:[]/x").apiRoute = "[]/x" ∧
    (parseRoute "service:[]/x").apiRoute ≠ "/x" ∧
    (parseRoute "service:[]/x").error = none := by decide

theorem parseRoute_httpMethod_api (s : String) :
    (parseRoute s).httpMethod = (parseHttpMethod (routeRemainderApi s)).1 := by
  rw [parseRoute_httpMethod_eq, parseServiceRoute_eq]
  rfl

theorem parseRoute_apiRoute_api (s : String) :
    (parseRoute s).apiRoute = (parseHttpMethod (routeRemainderApi s)).2.1 := by
  rw [parseRoute_apiRoute_eq, parseServiceRoute_eq]
  rfl

theorem parseRoute_error_api (s : String) :
    (parseRoute s).error = (parseHttpMethod (routeRemainderApi s)).2.2 := by
  rw [parseRoute_error_eq, parseServiceRoute_eq]
  rfl

theorem take_one_of_jsIndexOfChar_zero (a : String) (c : Char)
    (h : jsIndexOfChar a c = some 0) : a.toList.take 1 = [c] := by
  unfold jsIndexOfChar at h
  cases hl : a.toList with
  | nil => rw [hl] at h; simp at h
  | cons x t =>
    rw [hl] at h
    rw [List.findIdx?_cons] at h
    by_cases hx : x = c
    · simp [hx]
    · simp [hx] at h

theorem parseHttpMethod_no_bracket (a : String) (h : a.toList.take 1 ≠ ['[']) :
    parseHttpMethod a = (none, a, none) := by
  unfold parseHttpMethod
  cases hi : jsIndexOfChar a '[' with
  | none => rfl
  | some n =>
    cases n with
    | zero => exact absurd (take_one_of_jsIndexOfChar_zero a '[' hi) h
    | succ k => rfl

/-- C9: a route whose intermediate `apiRoute` does not begin with `[`
keeps `httpMethod` undefined (`none`, never the empty string) and returns
`apiRoute` unchanged; an empty route remainder yields empty `serviceName`
and `apiRoute` with no error; and `parseRoute('client:/')` parses as the
spec's example. -/
theorem parseRoute_no_bracket_defaults (s : String) :
    ((routeRemainderApi s).toList.take 1 ≠ ['['] →
       (parseRoute s).httpMethod = none ∧
       (parseRoute s).apiRoute = routeRemainderApi s ∧
       (parseRoute s).error = none) ∧
    ((parseInstance s).2.2 = "" →
       (parseRoute s).serviceName = "" ∧ (parseRoute s).apiRoute = "" ∧
       (parseRoute s).error = none) ∧
    parseRoute "client:/" =
      { «instance» := "", subID := some "", serviceName := "client",
        httpMethod := none, apiRoute := "/", error := none } := by
  refine ⟨fun h1 => ?_, fun h2 => ?_, by decide⟩
  · have hph := parseHttpMethod_no_bracket (routeRemainderApi s) h1
    rw [parseRoute_httpMethod_api, parseRoute_apiRoute_api, parseRoute_error_api, hph]
    exact ⟨rfl, rfl, rfl⟩
  · have hps : parseServiceRoute "" = ("", none, "", none) := by decide
    rw [parseRoute_serviceName_eq, parseRoute_apiRoute_eq, parseRoute_error_eq, h2, hps]
    exact ⟨rfl, rfl, rfl⟩

/-- C9 witness: a bracket-free route and an empty route remainder. -/
theorem parseRoute_no_bracket_defaults_witness :
    ((parseRoute "client:/v1").httpMethod = none ∧
     (parseRoute "client:/v1").apiRoute = routeRemainderApi "client:/v1" ∧
     (parseRoute "client:/v1").error = none) ∧
    ((parseRoute "abc@").serviceName = "" ∧ (parseRoute "abc@").apiRoute = "" ∧
     (parseRoute "abc@").error = none) :=
  ⟨(parseRoute_no_bracket_defaults "client:/v1").1 (by decide),
   (parseRoute_no_bracket_defaults "abc@").2.1 (by decide)⟩

theorem extractServiceE_ok (segments : List String) (h : segments ≠ []) :
    extractServiceE segments = .ok (extractService segments) := by
  cases segments with
  | nil => exact absurd rfl h
  | cons x xs =>
    by_cases hh : jsStartsWith x "http" <;>
      simp [extractServiceE, extractService, hh, expectString]

theorem parseHttpMethodE_ok (a : String) : parseHttpMethodE a = .ok (parseHttpMethod a) := by
  unfold parseHttpMethodE parseHttpMethod
  cases h1 : jsIndexOfChar a '[' with
  | none => rfl
  | some n =>
    cases n with
    | zero =>
      cases h2 : jsIndexOfChar a ']' with
      | none => rfl
      | some s2 => rfl
    | succ k => rfl

theorem parseServiceRouteE_ok (u : String) :
    parseServiceRouteE u = .ok (parseServiceRoute u) := by
  have hne := jsSplitChar_ne_nil u ':'
  have hpos := List.length_pos.mpr hne
  unfold parseServiceRouteE parseServiceRoute
  rw [if_neg (by omega), if_neg (by omega)]
  simp [extractServiceE_ok _ hne, parseHttpMethodE_ok]

/-- C7: the exception-faithful translation of `parseRoute` returns
normally, with the same `RouteResult`, on every input string: no path
raises, and parse failures surface only through the `error` field. -/
theorem parseRoute_never_throws (s : String) :
    parseRouteE s = Except.ok (parseRoute s) := by
  simp only [parseRouteE, parseRoute, parseServiceRouteE_ok]

/-- C1: evaluating `parseRoute` at the spec's UUID-instance route.  The
service name, HTTP method and api route match the spec, but the code
truncates `instance` at the first `-` of the UUID (`segments[0]` after
the `split('-')`), so `instance` is `fa1ae8d5` rather than the full UUID
that the spec and the repository's own test expect. -/
theorem parseRoute_uuid_route_evaluation :
    parseRoute "fa1ae8d5-86fc-44af-aad8-cd2740aef041@test-service:[GET]/v1/somedata" =
      { «instance» := "fa1ae8d5", subID := some "86fc", serviceName := "test-service",
        httpMethod := some "get", apiRoute := "/v1/somedata", error := none } ∧
    (parseRoute
        "fa1ae8d5-86fc-44af-aad8-cd2740aef041@test-service:[GET]/v1/somedata").«instance» ≠
      "fa1ae8d5-86fc-44af-aad8-cd2740aef041" := by
  decide
